import Mathlib

/-!
Verification of the magnet-watchtower uptime monitor (src/api/check.rs).

The source is a single Rust file: a scheduled uptime checker that probes a
configured list of domains over HTTP, classifies each probe outcome, sends a
Slack alert when failures exist, and returns a JSON run summary.

The embedding below translates the source's data structures and functions into
Lean. Effects (the HTTP send, wall-clock measurement, task joining, the
environment variable, the webhook POST outcome) are passed in explicitly as
values, so every source function becomes a pure Lean function of its code plus
its environment inputs.
-/

/-- Mirrors `struct Domain` (src/api/check.rs lines 7-13): one monitored
target with a name, a URL, and a per-target timeout in seconds. -/
structure Domain where
  name : String
  url : String
  timeout_seconds : Nat
deriving DecidableEq

/-- Mirrors `fn default_timeout` (lines 15-17): the serde default of 10
seconds applied when `timeout_seconds` is absent from the configuration. -/
def default_timeout : Nat := 10

/-- Mirrors `struct CheckResult` (lines 24-32): the structured outcome of one
probe. -/
structure CheckResult where
  name : String
  url : String
  success : Bool
  error : Option String
  status_code : Option Nat
  response_time_ms : Option Nat
deriving DecidableEq

/-- Mirrors `struct SlackText` (lines 48-53). -/
structure SlackText where
  text_type : String
  text : String
deriving DecidableEq

/-- Mirrors `struct SlackBlock` (lines 40-46). -/
structure SlackBlock where
  block_type : String
  text : Option SlackText
  fields : Option (List SlackText)
deriving DecidableEq

/-- Mirrors `struct SlackMessage` (lines 34-38). -/
structure SlackMessage where
  text : String
  blocks : List SlackBlock
deriving DecidableEq

/-- Environment model of a `reqwest::Error`: the three classification
predicates the source consults (`is_timeout`, `is_connect`, `is_request`)
plus its `Display` description used by the `format!("Error: {}", e)`
fallback. -/
structure ReqwestError where
  timeoutFlag : Bool
  connectFlag : Bool
  requestFlag : Bool
  description : String
deriving DecidableEq

/-- Environment model of the value of `client.get(&domain.url).timeout(t).send().await`
(lines 59-64): either an HTTP response carrying a status code, or a
`reqwest::Error`. -/
inductive SendResult where
  | ok (status : Nat)
  | err (e : ReqwestError)
deriving DecidableEq

/-- Mirrors `reqwest::StatusCode::is_success` as used on line 72: the status
class 200..=299. -/
def statusIsSuccess (s : Nat) : Bool := 200 ≤ s && s < 300

/-- Mirrors `async fn check_domain` (lines 55-104). The awaited send result
and the measured elapsed milliseconds (`start.elapsed().as_millis() as u64`)
are explicit inputs; the function is total, so no error ever propagates to
the caller. -/
def check_domain (domain : Domain) (send : SendResult) (elapsed_ms : Nat) :
    CheckResult :=
  match send with
  | SendResult.ok status =>
      { name := domain.name
        url := domain.url
        success := statusIsSuccess status
        error := if statusIsSuccess status then none
                 else some ("HTTP " ++ toString status)
        status_code := some status
        response_time_ms := some elapsed_ms }
  | SendResult.err e =>
      let error_msg :=
        if e.timeoutFlag then "Timeout"
        else if e.connectFlag then "Connection failed"
        else if e.requestFlag then "Request failed"
        else "Error: " ++ e.description
      { name := domain.name
        url := domain.url
        success := false
        error := some error_msg
        status_code := none
        response_time_ms := some elapsed_ms }

/-- C2: for a probe that receives an HTTP response with status `s`,
`check_domain` reports `success` exactly when `200 ≤ s ≤ 299`, records the
status code, sets `error` to `none` on success and to `"HTTP s"` otherwise,
and records the elapsed response time; in particular a 404 response yields
`success = false`, `error = "HTTP 404"`, `status_code = 404`. -/
theorem check_domain_http_response (d : Domain) (s elapsed : Nat) :
    ((check_domain d (SendResult.ok s) elapsed).success = true ↔
      200 ≤ s ∧ s ≤ 299)
    ∧ (check_domain d (SendResult.ok s) elapsed).status_code = some s
    ∧ (check_domain d (SendResult.ok s) elapsed).error =
        (if 200 ≤ s ∧ s ≤ 299 then none else some ("HTTP " ++ toString s))
    ∧ (check_domain d (SendResult.ok s) elapsed).response_time_ms =
        some elapsed
    ∧ check_domain d (SendResult.ok 404) elapsed =
        { name := d.name, url := d.url, success := false
          error := some "HTTP 404", status_code := some 404
          response_time_ms := some elapsed } := by
  have hsucc : statusIsSuccess s = true ↔ 200 ≤ s ∧ s ≤ 299 := by
    simp only [statusIsSuccess, Bool.and_eq_true, decide_eq_true_eq]
    omega
  refine ⟨?_, rfl, ?_, rfl, ?_⟩
  · exact hsucc
  · by_cases h : 200 ≤ s ∧ s ≤ 299
    · simp [check_domain, hsucc.mpr h, h]
    · have : statusIsSuccess s = false := by
        cases hb : statusIsSuccess s with
        | false => rfl
        | true => exact absurd (hsucc.mp hb) h
      simp [check_domain, this, h]
  · simp [check_domain, statusIsSuccess]
    rfl

/-- C3: for a probe whose send fails (no HTTP response), `check_domain`
returns `success = false`, `status_code = none`, records the elapsed time,
and classifies the error as exactly one of `"Timeout"`, `"Connection
failed"`, `"Request failed"` or `"Error: <description>"` following the
source's cascade of `is_timeout`/`is_connect`/`is_request`; being total, it
never propagates the error. -/
theorem check_domain_send_failure (d : Domain) (e : ReqwestError)
    (elapsed : Nat) :
    (check_domain d (SendResult.err e) elapsed).success = false
    ∧ (check_domain d (SendResult.err e) elapsed).status_code = none
    ∧ (check_domain d (SendResult.err e) elapsed).response_time_ms =
        some elapsed
    ∧ ((check_domain d (SendResult.err e) elapsed).error = some "Timeout"
        ∨ (check_domain d (SendResult.err e) elapsed).error =
            some "Connection failed"
        ∨ (check_domain d (SendResult.err e) elapsed).error =
            some "Request failed"
        ∨ (check_domain d (SendResult.err e) elapsed).error =
            some ("Error: " ++ e.description))
    ∧ (e.timeoutFlag = true →
        (check_domain d (SendResult.err e) elapsed).error = some "Timeout")
    ∧ (e.timeoutFlag = false → e.connectFlag = true →
        (check_domain d (SendResult.err e) elapsed).error =
          some "Connection failed")
    ∧ (e.timeoutFlag = false → e.connectFlag = false → e.requestFlag = true →
        (check_domain d (SendResult.err e) elapsed).error =
          some "Request failed")
    ∧ (e.timeoutFlag = false → e.connectFlag = false → e.requestFlag = false →
        (check_domain d (SendResult.err e) elapsed).error =
          some ("Error: " ++ e.description)) := by
  refine ⟨rfl, rfl, rfl, ?_, ?_, ?_, ?_, ?_⟩
  · cases ht : e.timeoutFlag <;> cases hc : e.connectFlag <;>
      cases hr : e.requestFlag <;> simp [check_domain, ht, hc, hr]
  · intro ht; simp [check_domain, ht]
  · intro ht hc; simp [check_domain, ht, hc]
  · intro ht hc hr; simp [check_domain, ht, hc, hr]
  · intro ht hc hr; simp [check_domain, ht, hc, hr]

/-- Witness for C3 at a concrete input: a pure connection error is classified
as `"Connection failed"`. -/
theorem check_domain_send_failure_witness :
    (check_domain ⟨"example", "https://example.com", 10⟩
      (SendResult.err ⟨false, true, false, "connect error"⟩) 37).error =
      some "Connection failed" :=
  (check_domain_send_failure ⟨"example", "https://example.com", 10⟩
      ⟨false, true, false, "connect error"⟩ 37).2.2.2.2.2.1 rfl rfl

/-- C8: every outcome `check_domain` produces satisfies the exclusivity
invariant: exactly one of "success with status code and no error" or
"failure with an error" holds, and `response_time_ms` is always populated
(the probe completed in every branch of `check_domain`). -/
theorem check_domain_exclusivity (d : Domain) (send : SendResult)
    (elapsed : Nat) :
    (((check_domain d send elapsed).success = true
        ∧ (check_domain d send elapsed).status_code.isSome = true
        ∧ (check_domain d send elapsed).error = none)
      ∨ ((check_domain d send elapsed).success = false
        ∧ (check_domain d send elapsed).error.isSome = true))
    ∧ ¬(((check_domain d send elapsed).success = true
        ∧ (check_domain d send elapsed).status_code.isSome = true
        ∧ (check_domain d send elapsed).error = none)
      ∧ ((check_domain d send elapsed).success = false
        ∧ (check_domain d send elapsed).error.isSome = true))
    ∧ (check_domain d send elapsed).response_time_ms.isSome = true := by
  refine ⟨?_, ?_, ?_⟩
  · cases send with
    | ok status =>
      cases hs : statusIsSuccess status with
      | false => exact Or.inr ⟨by simp [check_domain, hs], by simp [check_domain, hs]⟩
      | true => exact Or.inl ⟨by simp [check_domain, hs], by simp [check_domain, hs], by simp [check_domain, hs]⟩
    | err e => exact Or.inr ⟨rfl, rfl⟩
  · rintro ⟨⟨h1, -, -⟩, ⟨h2, -⟩⟩
    rw [h1] at h2
    exact Bool.noConfusion h2
  · cases send <;> rfl

/-- C9: for a probe that fails with a timeout, the outcome has
`success = false`, `error = "Timeout"`, and the recorded response time is at
least the configured deadline. The hypothesis `htime` captures the timeout
mechanism of the HTTP client (external to this source): the send errors with
`is_timeout` only once the deadline `Duration::from_secs(timeout_seconds)`
has elapsed, so the measured elapsed milliseconds are at least
`timeout_seconds * 1000`. -/
theorem check_domain_timeout (d : Domain) (e : ReqwestError) (elapsed : Nat)
    (ht : e.timeoutFlag = true)
    (htime : d.timeout_seconds * 1000 ≤ elapsed) :
    (check_domain d (SendResult.err e) elapsed).success = false
    ∧ (check_domain d (SendResult.err e) elapsed).error = some "Timeout"
    ∧ ∃ t, (check_domain d (SendResult.err e) elapsed).response_time_ms =
        some t ∧ d.timeout_seconds * 1000 ≤ t := by
  refine ⟨rfl, by simp [check_domain, ht], elapsed, rfl, htime⟩

/-- Witness for C9 at a concrete input: a 10-second timeout whose probe
errored out after 10500 ms. -/
theorem check_domain_timeout_witness :
    (check_domain ⟨"example", "https://example.com", 10⟩
        (SendResult.err ⟨true, false, false, "timed out"⟩) 10500).error =
      some "Timeout" :=
  (check_domain_timeout ⟨"example", "https://example.com", 10⟩
      ⟨true, false, false, "timed out"⟩ 10500 rfl (by decide)).2.1

/-- Header line of the alert, mirroring the `format!` on lines 114-118:
`"🚨 *Uptime Alert: {} domain{} down*"` with `" is"` for exactly one failure
and `"s are"` otherwise. -/
def header_text (failure_count : Nat) : String :=
  "🚨 *Uptime Alert: " ++ toString failure_count ++ " domain" ++
    (if failure_count == 1 then " is" else "s are") ++ " down*"

/-- The header block pushed first (lines 121-128). -/
def headerBlock (failure_count : Nat) : SlackBlock :=
  { block_type := "header"
    text := some
      { text_type := "plain_text"
        text := "Uptime Alert: " ++ toString failure_count ++ " domain" ++
          (if failure_count == 1 then " is" else "s are") ++ " down" }
    fields := none }

/-- The timestamp section block (lines 129-136). -/
def checkTimeBlock (timestamp : String) : SlackBlock :=
  { block_type := "section"
    text := some { text_type := "mrkdwn", text := "*Check Time:* " ++ timestamp }
    fields := none }

/-- The divider block (lines 137-141). -/
def dividerBlock : SlackBlock :=
  { block_type := "divider", text := none, fields := none }

/-- The four fields of one failure entry (lines 150-167): domain name, error
text with the `"Unknown error"` fallback, the URL as a Slack link
`<url|url>`, and the response time in ms with the `0` fallback. -/
def failureFields (failure : CheckResult) : List SlackText :=
  [ { text_type := "mrkdwn", text := "*Domain:*\n" ++ failure.name }
  , { text_type := "mrkdwn"
      text := "*Error:*\n" ++ failure.error.getD "Unknown error" }
  , { text_type := "mrkdwn"
      text := "*URL:*\n<" ++ failure.url ++ "|" ++ failure.url ++ ">" }
  , { text_type := "mrkdwn"
      text := "*Response Time:*\n" ++
        toString (failure.response_time_ms.getD 0) ++ "ms" } ]

/-- One section block per failure, as pushed by the loop on lines 144-169. -/
def failureBlock (failure : CheckResult) : SlackBlock :=
  { block_type := "section", text := none, fields := some (failureFields failure) }

/-- The block list built on lines 120-169: header, timestamp section,
divider, then one fields-block per failure in input order. -/
def slackBlocks (timestamp : String) (failures : List CheckResult) :
    List SlackBlock :=
  [headerBlock failures.length, checkTimeBlock timestamp, dividerBlock]
    ++ failures.map failureBlock

/-- The full `SlackMessage` assembled on lines 171-174. -/
def slackMessage (timestamp : String) (failures : List CheckResult) :
    SlackMessage :=
  { text := header_text failures.length
    blocks := slackBlocks timestamp failures }

/-- An outbound network call of the notifier: the HTTP POST of the serialized
message to the webhook URL (lines 176-182). -/
inductive NetworkCall where
  | post (url : String) (message : SlackMessage)
deriving DecidableEq

/-- Mirrors `async fn send_slack_notification` (lines 106-185). Explicit
environment inputs: the timestamp taken from `Utc::now()` on line 111, and
`postResult`, the outcome of the webhook POST (already mapped to a string
error as by `map_err(|e| Error::from(e.to_string()))`). The first component
lists the network calls the function performs. -/
def send_slack_notification (webhook_url : String) (timestamp : String)
    (failures : List CheckResult) (postResult : Except String Unit) :
    List NetworkCall × Except String Unit :=
  if failures.isEmpty then ([], Except.ok ())
  else
    ([NetworkCall.post webhook_url (slackMessage timestamp failures)],
     postResult)

/-- C4: with an empty failure list the notifier returns success immediately
and performs zero network calls. -/
theorem notifier_empty_no_calls (webhook_url timestamp : String)
    (postResult : Except String Unit) :
    send_slack_notification webhook_url timestamp [] postResult =
      ([], Except.ok ()) := rfl

/-- C5: the alert headline (both the message `text` and the header block) is
singular "1 domain is down" for exactly one failure and plural
"N domains are down" for more than one. -/
theorem alert_headline (timestamp : String) (failures : List CheckResult) :
    (failures.length = 1 →
      (slackMessage timestamp failures).text =
        "🚨 *Uptime Alert: 1 domain is down*"
      ∧ (headerBlock failures.length).text = some
          { text_type := "plain_text", text := "Uptime Alert: 1 domain is down" })
    ∧ (1 < failures.length →
      (slackMessage timestamp failures).text =
        "🚨 *Uptime Alert: " ++ toString failures.length ++
          " domains are down*"
      ∧ (headerBlock failures.length).text = some
          { text_type := "plain_text"
            text := "Uptime Alert: " ++ toString failures.length ++
              " domains are down" }) := by
  constructor
  · intro h
    rw [slackMessage, header_text, headerBlock, h]
    exact ⟨rfl, rfl⟩
  · intro h
    have hne : (failures.length == 1) = false := by
      simp only [beq_eq_false_iff_ne, ne_eq]
      omega
    rw [slackMessage, header_text, headerBlock, hne]
    constructor
    · show ((("🚨 *Uptime Alert: " ++ toString failures.length) ++ " domain")
          ++ "s are") ++ " down*" = _
      rw [String.append_assoc, String.append_assoc]
      rfl
    · show some (SlackText.mk "plain_text"
          (((("Uptime Alert: " ++ toString failures.length)
            ++ " domain") ++ "s are") ++ " down")) = _
      rw [String.append_assoc, String.append_assoc]
      rfl

/-- Witness for C5 at a concrete input: two failures give the plural
headline. -/
theorem alert_headline_witness :
    (slackMessage "2025-01-01 00:00:00 UTC"
      [ ⟨"A", "https://a.com", false, some "HTTP 404", some 404, some 120⟩
      , ⟨"B", "https://b.com", false, some "Timeout", none, some 10000⟩ ]).text =
      "🚨 *Uptime Alert: 2 domains are down*" :=
  ((alert_headline "2025-01-01 00:00:00 UTC"
      [ ⟨"A", "https://a.com", false, some "HTTP 404", some 404, some 120⟩
      , ⟨"B", "https://b.com", false, some "Timeout", none, some 10000⟩ ]).2
    (by decide)).1

/-- C6: for a non-empty failure list the notifier POSTs exactly one message
to the webhook, whose block list is a header block, the timestamp section,
a divider, and then exactly one fields-block per failure in input order; the
fields-block at position `3 + i` carries failure `i`'s name, its error text
(`"Unknown error"` when absent), its URL as the link `<url|url>`, and its
response time in milliseconds (`0` when absent). -/
theorem alert_message_structure (webhook_url timestamp : String)
    (failures : List CheckResult) (postResult : Except String Unit)
    (hne : failures ≠ []) :
    (send_slack_notification webhook_url timestamp failures postResult).1 =
      [NetworkCall.post webhook_url (slackMessage timestamp failures)]
    ∧ (slackMessage timestamp failures).blocks.length = 3 + failures.length
    ∧ (slackMessage timestamp failures).blocks[0]? =
        some (headerBlock failures.length)
    ∧ (slackMessage timestamp failures).blocks[1]? = some
        { block_type := "section"
          text := some
            { text_type := "mrkdwn", text := "*Check Time:* " ++ timestamp }
          fields := none }
    ∧ (slackMessage timestamp failures).blocks[2]? = some
        { block_type := "divider", text := none, fields := none }
    ∧ ∀ i f, failures[i]? = some f →
        (slackMessage timestamp failures).blocks[3 + i]? = some
          { block_type := "section"
            text := none
            fields := some
              [ { text_type := "mrkdwn", text := "*Domain:*\n" ++ f.name }
              , { text_type := "mrkdwn"
                  text := "*Error:*\n" ++ f.error.getD "Unknown error" }
              , { text_type := "mrkdwn"
                  text := "*URL:*\n<" ++ f.url ++ "|" ++ f.url ++ ">" }
              , { text_type := "mrkdwn"
                  text := "*Response Time:*\n" ++
                    toString (f.response_time_ms.getD 0) ++ "ms" } ] } := by
  refine ⟨?_, ?_, ?_, ?_, ?_, ?_⟩
  · rw [send_slack_notification, if_neg (by simpa using hne)]
  · simp only [slackMessage, slackBlocks, List.length_append,
      List.length_map, List.length_cons, List.length_nil]
  · simp [slackMessage, slackBlocks]
  · simp [slackMessage, slackBlocks, checkTimeBlock]
  · simp [slackMessage, slackBlocks, dividerBlock]
  · intro i f hf
    show (slackMessage timestamp failures).blocks[3 + i]? =
      some (failureBlock f)
    rw [slackMessage, slackBlocks]
    rw [List.getElem?_append_right (by simp)]
    simp only [List.length_cons, List.length_nil]
    have h3 : 3 + i - 3 = i := by omega
    rw [h3, List.getElem?_map, hf]
    rfl

/-- Witness for C6 at a concrete input: one failure produces exactly one POST
of the expected message. -/
theorem alert_message_structure_witness :
    (send_slack_notification "https://hooks.example.com/T/B/X"
        "2025-01-01 00:00:00 UTC"
        [⟨"A", "https://a.com", false, some "HTTP 404", some 404, some 120⟩]
        (Except.ok ())).1 =
      [NetworkCall.post "https://hooks.example.com/T/B/X"
        (slackMessage "2025-01-01 00:00:00 UTC"
          [⟨"A", "https://a.com", false, some "HTTP 404", some 404, some 120⟩])] :=
  (alert_message_structure "https://hooks.example.com/T/B/X"
      "2025-01-01 00:00:00 UTC"
      [⟨"A", "https://a.com", false, some "HTTP 404", some 404, some 120⟩]
      (Except.ok ()) (by simp)).1

/-- Witness for C2 at a concrete input: a 404 response yields the failure
outcome with `error = "HTTP 404"`. -/
theorem check_domain_http_response_witness :
    check_domain ⟨"A", "https://a.com", 10⟩ (SendResult.ok 404) 7 =
      { name := "A", url := "https://a.com", success := false
        error := some "HTTP 404", status_code := some 404
        response_time_ms := some 7 } :=
  (check_domain_http_response ⟨"A", "https://a.com", 10⟩ 404 7).2.2.2.2

/-- Witness for C8 at a concrete input: a completed probe has its response
time populated. -/
theorem check_domain_exclusivity_witness :
    (check_domain ⟨"A", "https://a.com", 10⟩ (SendResult.ok 200) 5).response_time_ms.isSome
      = true :=
  (check_domain_exclusivity ⟨"A", "https://a.com", 10⟩ (SendResult.ok 200) 5).2.2

/-- Environment model of one spawned probe task's join (lines 209-221):
either the task ran to completion and `task.await` yields its
`check_domain` call's environment inputs, or the join failed (the task
panicked or was cancelled) with the logged message. -/
inductive TaskEvent where
  | joined (send : SendResult) (elapsed_ms : Nat)
  | joinFailed (msg : String)
deriving DecidableEq

/-- What the join loop (lines 216-221) contributes to `results` for one
domain/task pair: `some` pushed result on a successful join, `none` (message
only logged) on a failed join. -/
def outcomeOf (d : Domain) : TaskEvent → Option CheckResult
  | TaskEvent.joined send elapsed_ms => some (check_domain d send elapsed_ms)
  | TaskEvent.joinFailed _ => none

/-- Mirrors the fan-out and join of `handler` (lines 204-221): one task per
configured domain spawned in input order, joined sequentially in spawn
order; each successful join pushes its result, each failed join is dropped
from the collection. -/
def collectResults (domains : List Domain) (events : List TaskEvent) :
    List CheckResult :=
  (domains.zip events).filterMap (fun p => outcomeOf p.1 p.2)

/-- The run summary the handler serializes (lines 242-248). -/
structure RunSummary where
  timestamp : String
  total_checked : Nat
  successful : Nat
  failed : Nat
  results : List CheckResult
deriving DecidableEq

/-- Mirrors the `serde_json::json!` summary construction (lines 242-248):
`total_checked` is `results.len()`, `successful` counts the successes in
`results`, `failed` is the length of the failure partition computed on
lines 224-228. -/
def mkSummary (timestamp : String) (results : List CheckResult) :
    RunSummary :=
  { timestamp := timestamp
    total_checked := results.length
    successful := (results.filter (fun r => r.success)).length
    failed := (results.filter (fun r => !r.success)).length
    results := results }

/-- The HTTP response the handler returns on success (lines 250-253):
status 200 (`StatusCode::OK`), the content type header, and the summary it
serializes as its body. Serializing a `serde_json::Value` and building a
response from these fixed parts cannot fail, so the two trailing `?`
operators on line 253 never produce an error. -/
structure HttpResponse where
  status : Nat
  contentType : String
  body : RunSummary
deriving DecidableEq

/-- The environment a `handler` invocation (lines 192-254) consumes:
the parse of the bundled `domains.json` (line 195), the outcome of building
the HTTP client (lines 199-202), the join event of each spawned probe task
in spawn order, the optional `SLACK_WEBHOOK_URL` variable (line 232), the
notifier's timestamp and POST outcome, and the summary timestamp taken on
line 243. -/
structure HandlerEnv where
  configResult : Except String (List Domain)
  clientBuild : Except String Unit
  events : List TaskEvent
  webhookUrl : Option String
  notifyTimestamp : String
  postResult : Except String Unit
  summaryTimestamp : String

/-- Mirrors `pub async fn handler` (lines 192-254). The first component
collects the notifier's network calls; the second is the handler's returned
result. A notification delivery failure is only logged (line 234), so it
does not influence the returned response. -/
def handler (env : HandlerEnv) :
    List NetworkCall × Except String HttpResponse :=
  match env.configResult with
  | Except.error e =>
      ([], Except.error ("Failed to parse domains.json: " ++ e))
  | Except.ok domains =>
    match env.clientBuild with
    | Except.error e => ([], Except.error e)
    | Except.ok _ =>
      let results := collectResults domains env.events
      let failures := results.filter (fun r => !r.success)
      let notifyCalls :=
        if failures.isEmpty then []
        else
          match env.webhookUrl with
          | some url =>
              (send_slack_notification url env.notifyTimestamp failures
                env.postResult).1
          | none => []
      (notifyCalls,
       Except.ok
        { status := 200
          contentType := "application/json"
          body := mkSummary env.summaryTimestamp results })

/-- Partitioning a list by a boolean predicate splits its length. -/
lemma length_success_partition (results : List CheckResult) :
    results.length = (results.filter (fun r => r.success)).length +
      (results.filter (fun r => !r.success)).length := by
  induction results with
  | nil => rfl
  | cons r rs ih =>
      cases hr : r.success <;> simp [List.filter_cons, hr] <;> omega

/-- C1: every summary response the handler returns satisfies
`total_checked = successful + failed`: the outcome count is exactly the
number of successes plus the number of failures. -/
theorem summary_counts_invariant (env : HandlerEnv) (resp : HttpResponse)
    (h : (handler env).2 = Except.ok resp) :
    resp.body.total_checked = resp.body.successful + resp.body.failed := by
  rcases hc : env.configResult with e | domains
  · simp [handler, hc] at h
  · rcases hb : env.clientBuild with e | u
    · simp [handler, hc, hb] at h
    · simp only [handler, hc, hb] at h
      have hresp : resp = HttpResponse.mk 200 "application/json"
          (mkSummary env.summaryTimestamp
            (collectResults domains env.events)) := by
        cases h
        rfl
      rw [hresp]
      exact length_success_partition (collectResults domains env.events)

/-- A sample target used by concrete witnesses. -/
def sampleDomain : Domain := ⟨"A", "https://a.com", 10⟩

/-- A sample handler environment used by concrete witnesses: one domain,
a joined probe task that observed HTTP 200 after 50 ms, no webhook. -/
def sampleEnv : HandlerEnv :=
  { configResult := Except.ok [sampleDomain]
    clientBuild := Except.ok ()
    events := [TaskEvent.joined (SendResult.ok 200) 50]
    webhookUrl := none
    notifyTimestamp := "2025-01-01 00:00:00 UTC"
    postResult := Except.ok ()
    summaryTimestamp := "2025-01-01T00:00:00Z" }

/-- The response `handler` computes on `sampleEnv`. -/
def sampleResp : HttpResponse :=
  { status := 200
    contentType := "application/json"
    body := mkSummary "2025-01-01T00:00:00Z"
      (collectResults [sampleDomain] [TaskEvent.joined (SendResult.ok 200) 50]) }

/-- Witness for C1 at a concrete input. -/
theorem summary_counts_invariant_witness :
    sampleResp.body.total_checked =
      sampleResp.body.successful + sampleResp.body.failed :=
  summary_counts_invariant sampleEnv sampleResp rfl

/-- C7: the handler returns a hard error exactly when a bootstrap step
failed (the configuration did not parse, or the HTTP client could not be
built); otherwise it returns the 200 summary response, and the result is
entirely independent of the webhook delivery outcome, which is only
logged. -/
theorem handler_error_policy (env : HandlerEnv) :
    ((handler env).2.isOk = true ↔
      env.configResult.isOk = true ∧ env.clientBuild.isOk = true)
    ∧ (∀ domains, env.configResult = Except.ok domains →
        env.clientBuild.isOk = true →
        (handler env).2 = Except.ok (HttpResponse.mk 200 "application/json"
          (mkSummary env.summaryTimestamp (collectResults domains env.events))))
    ∧ (∀ post, (handler { env with postResult := post }).2 = (handler env).2) := by
  refine ⟨?_, ?_, ?_⟩
  · rcases hc : env.configResult with e | domains
    · simp [handler, hc, Except.isOk, Except.toBool]
    · rcases hb : env.clientBuild with e | u
      · simp [handler, hc, hb, Except.isOk, Except.toBool]
      · simp [handler, hc, hb, Except.isOk, Except.toBool]
  · intro domains hc hb
    rcases hb2 : env.clientBuild with e | u
    · rw [hb2] at hb
      simp [Except.isOk, Except.toBool] at hb
    · simp [handler, hc, hb2]
  · intro post
    rcases hc : env.configResult with e | domains
    · simp [handler, hc]
    · rcases hb : env.clientBuild with e | u
      · simp [handler, hc, hb]
      · simp [handler, hc, hb]

/-- Witness for C7 at a concrete input: with a parsed configuration and a
built client, the handler returns the 200 summary response. -/
theorem handler_error_policy_witness :
    (handler sampleEnv).2 = Except.ok sampleResp :=
  (handler_error_policy sampleEnv).2.1 [sampleDomain] rfl rfl

/-- If a partial function is total on a list, `filterMap` keeps every
element, in order. -/
lemma forall2_filterMap_of_isSome {α β : Type} (f : α → Option β) :
    ∀ l : List α, (∀ a ∈ l, (f a).isSome = true) →
      List.Forall₂ (fun a b => f a = some b) l (l.filterMap f)
  | [], _ => by
      rw [List.filterMap_nil]
      exact List.Forall₂.nil
  | a :: l, h => by
      obtain ⟨b, hb⟩ :=
        Option.isSome_iff_exists.mp (h a (List.mem_cons_self a l))
      rw [List.filterMap_cons, hb]
      exact List.Forall₂.cons hb
        (forall2_filterMap_of_isSome f l
          (fun x hx => h x (List.mem_cons_of_mem a hx)))

/-- C10: when every probe task joins normally, the collected results are in
exactly the input order: there are as many results as configured domains,
and the i-th result is the outcome of the i-th domain's task (tasks are
spawned over the domain list in order and awaited in spawn order). -/
theorem results_follow_input_order (domains : List Domain)
    (events : List TaskEvent)
    (hlen : domains.length = events.length)
    (hok : ∀ ev ∈ events, ∃ send elapsed_ms,
      ev = TaskEvent.joined send elapsed_ms) :
    (collectResults domains events).length = domains.length
    ∧ List.Forall₂
        (fun (p : Domain × TaskEvent) r => outcomeOf p.1 p.2 = some r)
        (domains.zip events) (collectResults domains events) := by
  have hsome : ∀ p ∈ domains.zip events,
      ((fun q : Domain × TaskEvent => outcomeOf q.1 q.2) p).isSome = true := by
    rintro ⟨d, ev⟩ hp
    obtain ⟨s, t, het⟩ := hok ev (List.of_mem_zip hp).2
    rw [het]
    rfl
  have hf := forall2_filterMap_of_isSome
    (fun q : Domain × TaskEvent => outcomeOf q.1 q.2) (domains.zip events)
    hsome
  refine ⟨?_, hf⟩
  have hlz := List.Forall₂.length_eq hf
  rw [collectResults, ← hlz, List.length_zip]
  omega

/-- Witness for C10 at a concrete input: two domains, both tasks joined, two
results collected. -/
theorem results_follow_input_order_witness :
    (collectResults [⟨"A", "https://a.com", 10⟩, ⟨"B", "https://b.com", 5⟩]
      [TaskEvent.joined (SendResult.ok 200) 50,
       TaskEvent.joined (SendResult.ok 503) 70]).length = 2 :=
  (results_follow_input_order
    [⟨"A", "https://a.com", 10⟩, ⟨"B", "https://b.com", 5⟩]
    [TaskEvent.joined (SendResult.ok 200) 50,
     TaskEvent.joined (SendResult.ok 503) 70] rfl
    (by
      intro ev hev
      rcases List.mem_cons.mp hev with h | h
      · exact ⟨SendResult.ok 200, 50, h⟩
      · rcases List.mem_cons.mp h with h2 | h2
        · exact ⟨SendResult.ok 503, 70, h2⟩
        · exact absurd h2 (List.not_mem_nil ev))).1
